import Mathlib

/-!
Verification development for the kichwaniRada backend ("src/backend").

The code under verification is a Flask backend whose observable logic is
pure data shaping plus conditional string concatenation around three
external collaborators (a document store, a language-model API, a
messaging gateway).  Each external call is modelled by a parameter that
carries the outcome of that call (success value / failure), and the
per-user document store is modelled as the ordered list of stored
messages.  All definitions below are translated from the Python source
files `app/routes/chat.py`, `app/routes/mood.py`,
`app/services/openai_service.py` and `app/services/twilio_service.py`.
-/

namespace KichwaniRada

/-- A parsed JSON value, as produced by `json.loads` on the classifier
output in `openai_service.assess_crisis_risk`.  JSON numbers in scope of
the properties verified here are integers; floats and booleans are not
exercised and are omitted from the model. -/
inductive JsonVal where
  | jnull
  | jnum (n : Int)
  | jstr (s : String)
  | jarr (xs : List JsonVal)
  | jobj (fields : List (String × JsonVal))

/-- Outcome of the crisis-classification call in `assess_crisis_risk`
(`openai_service.py` lines 72-116): the API call raised
(`callFailure`), the call returned text that `json.loads` rejected
(`parseFailure`), or `json.loads` returned the value `v` (`parsed v`). -/
inductive AssessOutcome where
  | callFailure
  | parseFailure
  | parsed (v : JsonVal)

/-- `OpenAIService.assess_crisis_risk` (`openai_service.py` lines
62-116): on an API-call exception return the moderate-risk default
dict, on a `json.JSONDecodeError` return the no-risk default dict, and
otherwise return the parsed JSON value unchanged. -/
def assess_crisis_risk : AssessOutcome → JsonVal
  | .callFailure => .jobj
      [("crisis_risk", .jnum 5), ("crisis_type", .jstr "other"),
       ("recommended_action", .jstr "crisis_line")]
  | .parseFailure => .jobj
      [("crisis_risk", .jnum 0), ("crisis_type", .jstr "none"),
       ("recommended_action", .jstr "monitor")]
  | .parsed v => v

/-- Modelled from the spec (data model, `CrisisAssessment`): a JSON
value is a well-formed CrisisAssessment when it is an object whose
`crisis_risk` is an integer in [0,10], whose `crisis_type` is one of
the five allowed strings and whose `recommended_action` is one of the
five allowed strings.  This definition follows the spec's words; it is
compared against what `assess_crisis_risk` actually returns. -/
def specWellFormedAssessment (v : JsonVal) : Bool :=
  match v with
  | .jobj fs =>
      (match fs.lookup "crisis_risk" with
       | some (.jnum n) => decide (0 ≤ n ∧ n ≤ 10)
       | _ => false)
      &&
      (match fs.lookup "crisis_type" with
       | some (.jstr t) =>
           ["suicidal", "self_harm", "panic", "other", "none"].contains t
       | _ => false)
      &&
      (match fs.lookup "recommended_action" with
       | some (.jstr a) =>
           ["emergency_services", "crisis_line", "professional_help",
            "self_care", "monitor"].contains a
       | _ => false)
  | _ => false

/-- One message stored in a user's `chats/{user}/messages` collection,
reduced to the fields the pipeline reads back (`sender`, `content`).
The store for one user is the list of such messages in timestamp
(insertion) order. -/
structure StoredMsg where
  sender : String
  content : String
deriving DecidableEq, Repr

/-- One entry of the `messages` list sent to the chat-completion API
(`openai_service.py` lines 35-43). -/
structure RoleMsg where
  role : String
  content : String
deriving DecidableEq, Repr

/-- The system persona prompt set in `OpenAIService.__init__`
(`openai_service.py` lines 9-18). -/
def systemPrompt : String :=
  "\nYou are a supportive mental health chatbot designed to provide empathetic \nresponses and helpful guidance. You are not a replacement for professional \nmental health services, and you should always recommend seeking professional \nhelp for serious concerns. Focus on active listening, validation, and \nproviding evidence-based coping strategies when appropriate. Never diagnose \nmedical conditions or provide medical advice. If a user appears to be in \ncrisis or expresses suicidal thoughts, direct them to appropriate crisis \nresources.\n"

/-- The fixed apologetic fallback returned by `get_chat_response` when
the chat-completion call raises (`openai_service.py` line 60). -/
def fallbackReply : String :=
  "I\x27m having trouble connecting right now. Please try again in a moment."

/-- The `messages` list built in `get_chat_response`
(`openai_service.py` lines 34-43): the system prompt, then the last 10
entries of `chat_history` (`chat_history[-10:]`, modelled as
`drop (length - 10)`) with `sender == "user"` mapped to role `user` and
anything else to `assistant`, then the current user message. -/
def buildMessages (message : String) (chat_history : List StoredMsg) : List RoleMsg :=
  ({ role := "system", content := systemPrompt } ::
    (chat_history.drop (chat_history.length - 10)).map
      (fun m => { role := if m.sender = "user" then "user" else "assistant",
                  content := m.content }))
  ++ [{ role := "user", content := message }]

/-- Outcome of the chat-completion call in `get_chat_response`: the API
returned `raw` as `choices[0].message["content"]`, or the call raised. -/
inductive ReplyOutcome where
  | ok (raw : String)
  | failure

/-- `OpenAIService.get_chat_response` (`openai_service.py` lines
20-60).  Returns both the `messages` list sent to the model (so that
properties about the context window can be stated) and the reply
string: the stripped API text on success, the fixed fallback on an
API exception. -/
def get_chat_response (message : String) (chat_history : List StoredMsg)
    (out : ReplyOutcome) : List RoleMsg × String :=
  let messages := buildMessages message chat_history
  match out with
  | .ok raw => (messages, raw.trim)
  | .failure => (messages, fallbackReply)

/-- The suicide/self-harm resource block appended by the web route
(`chat.py` line 79). -/
def webSuicideText : String :=
  "\n\n**Important**: If you\x27re having thoughts of harming yourself, please contact the National Suicide Prevention Lifeline at 988 or 1-800-273-8255, or text HOME to 741741 to reach the Crisis Text Line."

/-- The generic crisis resource block appended by the web route
(`chat.py` line 81). -/
def webGenericText : String :=
  "\n\n**Resources**: If you need immediate support, consider contacting a crisis helpline like 988 (National Suicide Prevention Lifeline) or texting HOME to 741741 (Crisis Text Line)."

/-- The suicide/self-harm resource block appended by the SMS/WhatsApp
path (`twilio_service.py` line 126). -/
def twilioSuicideText : String :=
  "\n\nImportant: If you\x27re having thoughts of harming yourself, please contact the National Suicide Prevention Lifeline at 988 or 1-800-273-8255."

/-- The generic crisis resource block appended by the SMS/WhatsApp path
(`twilio_service.py` line 128). -/
def twilioGenericText : String :=
  "\n\nResources: If you need immediate support, consider contacting a crisis helpline like 988 (National Suicide Prevention Lifeline)."

/-- The risk-gating augmentation shared by `chat.py` lines 70-81 and
`twilio_service.py` lines 120-128, acting on the fields `fs` of the
assessment dict: `high_risk = crisis_assessment.get("crisis_risk", 0) >= 7`;
when high, append the suicide/self-harm block if
`crisis_type == "suicidal" or crisis_type == "self_harm"`, else the
generic block.  Returns `none` when the `crisis_risk` value is not a
number, where Python `>= 7` raises `TypeError`.  A missing or
non-string `crisis_type` compares unequal to both strings in Python
and so takes the generic branch. -/
def augmentReply (ai : String) (fs : List (String × JsonVal))
    (suicideText genericText : String) : Option String :=
  match (fs.lookup "crisis_risk").getD (.jnum 0) with
  | .jnum risk =>
      if risk ≥ 7 then
        match fs.lookup "crisis_type" with
        | some (.jstr t) =>
            if t = "suicidal" ∨ t = "self_harm" then some (ai ++ suicideText)
            else some (ai ++ genericText)
        | _ => some (ai ++ genericText)
      else some ai
  | _ => none

/-- Result of one call to the web turn handler `send_message`:
the JSON body on success, plus its sent model context and resulting
store; HTTP 400 on missing parameters; `crash` for an uncaught
exception (HTTP 500), reachable only when the parsed assessment is not
a dict or its `crisis_risk` is not a number. -/
structure TurnResult where
  response : String
  assessment : JsonVal
  sentMessages : List RoleMsg
  newStore : List StoredMsg

inductive SendResult where
  | badRequest
  | crash
  | ok (r : TurnResult)

def SendResult.response? : SendResult → Option String
  | .ok r => some r.response
  | _ => none

def SendResult.assessment? : SendResult → Option JsonVal
  | .ok r => some r.assessment
  | _ => none

def SendResult.sent? : SendResult → Option (List RoleMsg)
  | .ok r => some r.sentMessages
  | _ => none

def SendResult.store? : SendResult → Option (List StoredMsg)
  | .ok r => some r.newStore
  | _ => none

/-- The web turn handler `send_message` (`chat.py` lines 31-97) for one
user, with the user's message store passed in as `store` and each
external-call outcome as a parameter.  Steps, in source order:
missing-parameter check (Python falsy = empty string); history read
`order_by(timestamp, asc).limit(10)` over the timestamp-ordered store,
i.e. its first 10 entries, degraded to `[]` when the read raises;
best-effort persist of the inbound message; crisis assessment; reply
generation; risk gating; best-effort persist of the reply; return the
reply and the assessment. -/
def send_message (userId message : String) (store : List StoredMsg)
    (histFails persistUserFails persistBotFails : Bool)
    (assessOut : AssessOutcome) (replyOut : ReplyOutcome) : SendResult :=
  if userId = "" ∨ message = "" then .badRequest
  else
    let chat_history := if histFails then [] else store.take 10
    let store1 := if persistUserFails then store
                  else store ++ [{ sender := "user", content := message }]
    let crisis_assessment := assess_crisis_risk assessOut
    match crisis_assessment with
    | .jobj fs =>
        let sentAndReply := get_chat_response message chat_history replyOut
        match augmentReply sentAndReply.2 fs webSuicideText webGenericText with
        | none => .crash
        | some ai2 =>
            let store2 := if persistBotFails then store1
                          else store1 ++ [{ sender := "bot", content := ai2 }]
            .ok { response := ai2, assessment := crisis_assessment,
                  sentMessages := sentAndReply.1, newStore := store2 }
    | _ => .crash

/-- The generic error reply of the SMS/WhatsApp path, returned by the
outer exception handler of `process_incoming_message`
(`twilio_service.py` line 144). -/
def twilioProcFallback : String :=
  "I\x27m having trouble processing your message right now. Please try again later."

/-- `TwilioService.process_incoming_message` (`twilio_service.py` lines
74-144) for one user: the whole body runs inside a single
`try/except`, so a raising store operation (history read, either
message write) or a raising dict operation on the assessment aborts to
the generic fallback reply.  The phone-number user lookup/creation
steps have their own internal exception handlers, never raise out of
the function and only produce the user id, so they are not modelled.
`get_chat_response` and `assess_crisis_risk` catch their own
exceptions and never raise.  Returns the reply sent back to the
carrier and the resulting store. -/
def process_incoming_message (body : String) (store : List StoredMsg)
    (histFails persistUserFails : Bool) (replyOut : ReplyOutcome)
    (assessOut : AssessOutcome) (persistBotFails : Bool) :
    String × List StoredMsg :=
  if histFails then (twilioProcFallback, store)
  else
    let chat_history := store.take 10
    if persistUserFails then (twilioProcFallback, store)
    else
      let store1 := store ++ [{ sender := "user", content := body }]
      let ai := (get_chat_response body chat_history replyOut).2
      let crisis_assessment := assess_crisis_risk assessOut
      match crisis_assessment with
      | .jobj fs =>
          match augmentReply ai fs twilioSuicideText twilioGenericText with
          | none => (twilioProcFallback, store1)
          | some ai2 =>
              if persistBotFails then (twilioProcFallback, store1)
              else (ai2, store1 ++ [{ sender := "bot", content := ai2 }])
      | _ => (twilioProcFallback, store1)

/-- Result of `clear_chat_history`: HTTP 400 on empty user id, HTTP 500
when the store raises, else success with the number of deleted
documents. -/
inductive ClearResult where
  | missingUser
  | failure
  | ok (deleted : Nat)
deriving DecidableEq, Repr

/-- `clear_chat_history` (`chat.py` lines 131-155): streams the first
`batch_size = 100` documents of the user's message collection and
deletes each one, counting them; there is no loop over further
batches.  Returns the count and the resulting store. -/
def clear_chat_history (userId : String) (store : List StoredMsg)
    (storeFails : Bool) : ClearResult × List StoredMsg :=
  if userId = "" then (.missingUser, store)
  else if storeFails then (.failure, store)
  else (.ok (store.take 100).length, store.drop 100)

/-- A JSON value arriving as the `score` field of the mood-log request
body (`mood.py` line 14).  Floats are JSON decimals, modelled exactly
as rationals; `pyFloat q` stands for the float with value `q`. -/
inductive PyVal where
  | pyNone
  | pyInt (n : Int)
  | pyFloat (q : ℚ)
  | pyStr (s : String)

/-- The Python `mood_score is None` test (`mood.py` line 18). -/
def PyVal.isPyNone : PyVal → Bool
  | .pyNone => true
  | _ => false

/-- Python `int(x)` as applied to the mood score (`mood.py` line 23):
an int is unchanged, a float is truncated toward zero, a string is
parsed as a decimal integer (raising `ValueError`, here `none`, when
not of that form).  `pyNone` never reaches this point because of the
`mood_score is None` guard. -/
def pyToInt : PyVal → Option Int
  | .pyInt n => some n
  | .pyFloat q => some (Int.tdiv q.num q.den)
  | .pyStr s => s.trim.toInt?
  | .pyNone => none

/-- One mood entry document as read back from the store: the pipeline
accesses only its `score` field, via `entry.get("score", default)`, so
a missing field is `none`. -/
structure MoodEntry where
  score : Option Int
deriving DecidableEq, Repr

/-- The `trends` object of an insight (`mood.py` lines 188-191). -/
structure MoodTrend where
  direction : String
  average : ℚ
deriving DecidableEq, Repr

/-- The insight object returned by `generate_mood_insights`
(`mood.py` lines 146-192). -/
structure MoodInsight where
  message : String
  trends : Option MoodTrend
deriving DecidableEq, Repr

/-- The pure core of `generate_mood_insights` (`mood.py` lines
143-192), as a function of the entries returned by the 7-day store
query in timestamp order: fewer than 3 entries short-circuits to the
fixed message; otherwise scores default missing fields to 5
(`entry_dict.get("score", 5)`), the average is `sum/len`, the trend
compares `scores[-1]` and `scores[-2]` against `scores[0]` (indexing
via the `D` accessors, whose defaults are unreachable since
`length ≥ 3` here), and the message is selected from the trend and the
average. -/
def generate_mood_insights (entries : List MoodEntry) : MoodInsight :=
  if entries.length < 3 then
    { message := "Log more moods to receive personalized insights", trends := none }
  else
    let scores : List Int := entries.map (fun e => e.score.getD 5)
    let avg_score : ℚ := (scores.sum : ℚ) / (scores.length : ℚ)
    let trend :=
      if scores.getLastD 0 > scores.headD 0 ∧
         scores.getD (scores.length - 2) 0 > scores.headD 0 then "improving"
      else if scores.getLastD 0 < scores.headD 0 ∧
         scores.getD (scores.length - 2) 0 < scores.headD 0 then "declining"
      else "stable"
    let message :=
      if trend = "improving" then
        "Your mood appears to be improving over the past few days."
      else if trend = "declining" then
        "Your mood seems to be lower than usual. Consider engaging in activities that typically boost your mood."
      else if avg_score ≥ 7 then
        "Your mood has been consistently positive recently."
      else if avg_score ≤ 4 then
        "Your mood has been lower recently. Consider reaching out for support if this continues."
      else
        "Your mood has been relatively stable."
    { message := message, trends := some { direction := trend, average := avg_score } }

/-- The statistics object returned by `calculate_mood_statistics`
(`mood.py` lines 116-133). -/
structure MoodStats where
  average : Option ℚ
  highest : Option Int
  lowest : Option Int
  count : Nat
deriving DecidableEq, Repr

/-- `calculate_mood_statistics` (`mood.py` lines 116-133): the all-null
record with count 0 on an empty list; otherwise scores default missing
fields to 0 (`entry.get("score", 0)`) and the record carries
`sum/len`, `max`, `min` and the length.  Python `max`/`min` over a
nonempty list are `List.max?`/`List.min?` (always `some` here). -/
def calculate_mood_statistics (entries : List MoodEntry) : MoodStats :=
  if entries.isEmpty then
    { average := none, highest := none, lowest := none, count := 0 }
  else
    let scores : List Int := entries.map (fun e => e.score.getD 0)
    { average := some ((scores.sum : ℚ) / (scores.length : ℚ)),
      highest := scores.max?,
      lowest := scores.min?,
      count := scores.length }

/-- Result of `log_mood`: the three client-error branches and the
success branch carrying the insights computed after the write. -/
inductive LogMoodResult where
  | missingParams
  | invalidFormat
  | outOfRange
  | success (insights : MoodInsight)
deriving DecidableEq, Repr

/-- `log_mood` (`mood.py` lines 10-51) with the user's stored mood
scores passed as `moods` (in timestamp order) and the entries that the
subsequent 7-day insight query returns passed as `window`.  Missing
user id (Python falsy = empty string) or missing score gives the 400
`missingParams`; `int(score)` raising `ValueError` gives the 400
`invalidFormat`; an integer outside [1,10] gives the 400 `outOfRange`;
otherwise exactly the converted score is appended to the store and the
insights over the 7-day window are returned. -/
def log_mood (userId : String) (score : PyVal) (moods : List Int)
    (window : List MoodEntry) : LogMoodResult × List Int :=
  if userId = "" ∨ score.isPyNone then
    (.missingParams, moods)
  else
    match pyToInt score with
    | none => (.invalidFormat, moods)
    | some n =>
        if n < 1 ∨ n > 10 then (.outOfRange, moods)
        else (.success (generate_mood_insights window), moods ++ [n])

/-- A classifier output dict with the three expected fields, used to
instantiate the pipeline with concrete assessments. -/
def mkAssessment (risk : Int) (ctype action : String) : JsonVal :=
  .jobj [("crisis_risk", .jnum risk), ("crisis_type", .jstr ctype),
         ("recommended_action", .jstr action)]

/-- The rational 10.9 = 109/10, built from explicit numerator and
denominator; the value of the float score used against `log_mood`. -/
def tenPointNine : ℚ := ⟨109, 10, by decide, by decide⟩

/-- A store holding eleven messages in timestamp order, `m0` oldest. -/
def elevenMsgs : List StoredMsg :=
  [⟨"user", "m0"⟩, ⟨"user", "m1"⟩, ⟨"user", "m2"⟩, ⟨"user", "m3"⟩,
   ⟨"user", "m4"⟩, ⟨"user", "m5"⟩, ⟨"user", "m6"⟩, ⟨"user", "m7"⟩,
   ⟨"user", "m8"⟩, ⟨"user", "m9"⟩, ⟨"user", "m10"⟩]

/-! ## Theorems -/

/-- Claim C3, amended: the classifier wrapper returns without error in
all cases and its two failure defaults are as specified — call failure
yields the distinct cautious `{5, other, crisis_line}` and a JSON parse
failure yields `{0, none, monitor}`, both well-formed — but output that
parses as JSON is returned as-is, without schema validation (see the
counterexample). -/
theorem assess_crisis_risk_defaults :
    assess_crisis_risk .callFailure =
      .jobj [("crisis_risk", .jnum 5), ("crisis_type", .jstr "other"),
             ("recommended_action", .jstr "crisis_line")] ∧
    assess_crisis_risk .parseFailure =
      .jobj [("crisis_risk", .jnum 0), ("crisis_type", .jstr "none"),
             ("recommended_action", .jstr "monitor")] ∧
    specWellFormedAssessment (assess_crisis_risk .callFailure) = true ∧
    specWellFormedAssessment (assess_crisis_risk .parseFailure) = true ∧
    assess_crisis_risk .callFailure ≠ assess_crisis_risk .parseFailure := by
  refine ⟨rfl, rfl, rfl, rfl, ?_⟩
  simp [assess_crisis_risk]

/-- Claim C3, counterexample to the claim as stated: a classifier
output that parses as JSON but is not a well-formed CrisisAssessment
(here an object whose `crisis_risk` is 99 and which lacks the other
fields) is returned unchanged by `assess_crisis_risk`, so the wrapper
does not always return a well-formed CrisisAssessment. -/
theorem assess_crisis_risk_not_validated :
    assess_crisis_risk (.parsed (.jobj [("crisis_risk", .jnum 99)])) =
      .jobj [("crisis_risk", .jnum 99)] ∧
    specWellFormedAssessment (.jobj [("crisis_risk", .jnum 99)]) = false :=
  ⟨rfl, rfl⟩

/-- Claim C4, code bug: with eleven stored messages the context passed
to the reply generator is built from the ten OLDEST messages
(`m0`..`m9`) — the history query orders ascending and limits to 10,
which takes the first ten — and that list differs from the ten most
recent messages (`m1`..`m10`). -/
theorem history_context_is_oldest_ten :
    (send_message "u" "hi" elevenMsgs false false false
        (.parsed (mkAssessment 0 "none" "monitor")) (.ok "ok")).sent? =
      some (buildMessages "hi"
        [⟨"user", "m0"⟩, ⟨"user", "m1"⟩, ⟨"user", "m2"⟩, ⟨"user", "m3"⟩,
         ⟨"user", "m4"⟩, ⟨"user", "m5"⟩, ⟨"user", "m6"⟩, ⟨"user", "m7"⟩,
         ⟨"user", "m8"⟩, ⟨"user", "m9"⟩]) ∧
    elevenMsgs.take 10 ≠ elevenMsgs.drop (elevenMsgs.length - 10) := by
  constructor
  · rfl
  · decide

/-- Claim C10, code bug: on an already-empty store `clear_chat_history`
succeeds with `deleted = 0` (the idempotence half of the claim holds),
but on a store of 101 messages it deletes only the single batch of 100
that it streams, reports `deleted = 100`, and leaves one message
behind instead of removing every stored message. -/
theorem clear_history_deletes_single_batch :
    clear_chat_history "u" [] false = (.ok 0, []) ∧
    clear_chat_history "u" (List.replicate 101 ⟨"user", "m"⟩) false =
      (.ok 100, [⟨"user", "m"⟩]) := by
  constructor
  · rfl
  · rfl

/-- A nonempty integer list has a maximum that belongs to the list and
bounds every element. -/
theorem int_max?_spec {l : List Int} (h : l ≠ []) :
    ∃ m, l.max? = some m ∧ m ∈ l ∧ ∀ x ∈ l, x ≤ m := by
  cases hm : l.max? with
  | none => exact absurd (List.max?_eq_none_iff.mp hm) h
  | some m =>
    refine ⟨m, rfl, List.max?_mem (fun a b => max_choice a b) hm, ?_⟩
    intro x hx
    exact (List.max?_le_iff (fun a b c => max_le_iff) hm).mp (le_refl m) x hx

/-- A nonempty integer list has a minimum that belongs to the list and
is below every element. -/
theorem int_min?_spec {l : List Int} (h : l ≠ []) :
    ∃ m, l.min? = some m ∧ m ∈ l ∧ ∀ x ∈ l, m ≤ x := by
  cases hm : l.min? with
  | none => exact absurd (List.min?_eq_none_iff.mp hm) h
  | some m =>
    refine ⟨m, rfl, List.min?_mem (fun a b => min_choice a b) hm, ?_⟩
    intro x hx
    exact (List.le_min?_iff (fun a b c => le_min_iff) hm).mp (le_refl m) x hx

/-- Claim C9: `calculate_mood_statistics` returns the all-null record
with count 0 on an empty entry list; on any nonempty list it returns
the arithmetic mean of the scores, their maximum, their minimum, and
the number of entries; in particular scores [2, 8] give average 5,
highest 8, lowest 2, count 2. -/
theorem mood_statistics_spec :
    calculate_mood_statistics [] =
      { average := none, highest := none, lowest := none, count := 0 } ∧
    (∀ entries : List MoodEntry, entries ≠ [] →
      ∃ a hi lo, calculate_mood_statistics entries =
          { average := some a, highest := some hi, lowest := some lo,
            count := entries.length } ∧
        a = (((entries.map (fun e => e.score.getD 0)).sum : Int) : ℚ) /
              (entries.length : ℚ) ∧
        hi ∈ entries.map (fun e => e.score.getD 0) ∧
        (∀ x ∈ entries.map (fun e => e.score.getD 0), x ≤ hi) ∧
        lo ∈ entries.map (fun e => e.score.getD 0) ∧
        (∀ x ∈ entries.map (fun e => e.score.getD 0), lo ≤ x)) ∧
    calculate_mood_statistics [⟨some 2⟩, ⟨some 8⟩] =
      { average := some 5, highest := some 8, lowest := some 2, count := 2 } := by
  refine ⟨rfl, ?_, by simp [calculate_mood_statistics, List.max?, List.min?]; norm_num⟩
  intro entries hne
  have hsne : entries.map (fun e => e.score.getD 0) ≠ [] := by
    simpa using hne
  obtain ⟨hi, hhi, hhim, hhib⟩ := int_max?_spec hsne
  obtain ⟨lo, hlo, hlom, hlob⟩ := int_min?_spec hsne
  refine ⟨_, hi, lo, ?_, rfl, hhim, hhib, hlom, hlob⟩
  unfold calculate_mood_statistics
  rw [if_neg (by simpa [List.isEmpty_iff] using hne)]
  simp [hhi, hlo]

/-- Claim C9 witness: the nonempty case of the statistics theorem
applied to the concrete singleton list with score 4. -/
theorem mood_statistics_spec_witness :
    ∃ a hi lo, calculate_mood_statistics [⟨some 4⟩] =
        { average := some a, highest := some hi, lowest := some lo,
          count := ([⟨some 4⟩] : List MoodEntry).length } ∧
      a = ((([⟨some 4⟩] : List MoodEntry).map
            (fun e => e.score.getD 0)).sum : Int) /
          (([⟨some 4⟩] : List MoodEntry).length : ℚ) ∧
      hi ∈ ([⟨some 4⟩] : List MoodEntry).map (fun e => e.score.getD 0) ∧
      (∀ x ∈ ([⟨some 4⟩] : List MoodEntry).map (fun e => e.score.getD 0),
        x ≤ hi) ∧
      lo ∈ ([⟨some 4⟩] : List MoodEntry).map (fun e => e.score.getD 0) ∧
      (∀ x ∈ ([⟨some 4⟩] : List MoodEntry).map (fun e => e.score.getD 0),
        lo ≤ x) :=
  mood_statistics_spec.2.1 [⟨some 4⟩] (by decide)

/-- Claim C8: `generate_mood_insights` on fewer than 3 entries returns
the fixed "log more moods" message with no trend, regardless of the
scores; on 3 or more entries it returns a trend whose average is the
arithmetic mean of all scores in the window. -/
theorem insights_threshold_and_average :
    (∀ entries : List MoodEntry, entries.length < 3 →
      generate_mood_insights entries =
        { message := "Log more moods to receive personalized insights",
          trends := none }) ∧
    (∀ entries : List MoodEntry, 3 ≤ entries.length →
      ∃ t, (generate_mood_insights entries).trends = some t ∧
        t.average = (((entries.map (fun e => e.score.getD 5)).sum : Int) : ℚ) /
          (entries.length : ℚ)) := by
  constructor
  · intro entries h
    unfold generate_mood_insights
    rw [if_pos h]
  · intro entries h
    unfold generate_mood_insights
    rw [if_neg (by omega)]
    exact ⟨_, rfl, by simp only [List.length_map]⟩

/-- Claim C8 witness: at a concrete two-entry list the first part gives
the fixed message, and at a concrete three-entry list the second part
gives the mean 2 of the scores [1, 2, 3]. -/
theorem insights_threshold_and_average_witness :
    generate_mood_insights [⟨some 9⟩, ⟨some 1⟩] =
      { message := "Log more moods to receive personalized insights",
        trends := none } ∧
    ∃ t, (generate_mood_insights [⟨some 1⟩, ⟨some 2⟩, ⟨some 3⟩]).trends = some t ∧
      t.average = ((([⟨some 1⟩, ⟨some 2⟩, ⟨some 3⟩] : List MoodEntry).map
          (fun e => e.score.getD 5)).sum : Int) /
        (([⟨some 1⟩, ⟨some 2⟩, ⟨some 3⟩] : List MoodEntry).length : ℚ) :=
  ⟨insights_threshold_and_average.1 [⟨some 9⟩, ⟨some 1⟩] (by decide),
   insights_threshold_and_average.2 [⟨some 1⟩, ⟨some 2⟩, ⟨some 3⟩] (by decide)⟩

/-- With at least three entries, the trend direction computed by
`generate_mood_insights` equals the two-comparison heuristic applied to
the first score `f`, the second-to-last score `sl` and the last score
`l` of the window. -/
theorem trends_direction_spec (entries : List MoodEntry) (f sl l : Int)
    (h3 : 3 ≤ entries.length)
    (hf : (entries.map (fun e => e.score.getD 5)).head? = some f)
    (hsl : (entries.map (fun e => e.score.getD 5))[entries.length - 2]? = some sl)
    (hl : (entries.map (fun e => e.score.getD 5)).getLast? = some l) :
    ∃ t, (generate_mood_insights entries).trends = some t ∧
      t.direction = (if l > f ∧ sl > f then "improving"
                     else if l < f ∧ sl < f then "declining" else "stable") := by
  unfold generate_mood_insights
  rw [if_neg (by omega)]
  refine ⟨_, rfl, ?_⟩
  simp only [List.getLastD_eq_getLast?, List.headD_eq_head?_getD,
    List.getD_eq_getElem?_getD, List.length_map, hf, hsl, hl, Option.getD_some]

/-- Claim C7: for any window of at least three entries the trend is
`improving` iff both the last and the second-to-last score exceed the
first score, `declining` iff both are below the first score, and
`stable` in every remaining case; consequently the direction depends
only on the first, last and second-to-last scores, however many
entries lie between. -/
theorem mood_trend_first_last_two :
    (∀ (entries : List MoodEntry) (f sl l : Int), 3 ≤ entries.length →
      (entries.map (fun e => e.score.getD 5)).head? = some f →
      (entries.map (fun e => e.score.getD 5))[entries.length - 2]? = some sl →
      (entries.map (fun e => e.score.getD 5)).getLast? = some l →
      ∃ t, (generate_mood_insights entries).trends = some t ∧
        (t.direction = "improving" ↔ l > f ∧ sl > f) ∧
        (t.direction = "declining" ↔ l < f ∧ sl < f) ∧
        (t.direction = "stable" ↔ ¬(l > f ∧ sl > f) ∧ ¬(l < f ∧ sl < f))) ∧
    (∀ e₁ e₂ : List MoodEntry, 3 ≤ e₁.length → 3 ≤ e₂.length →
      (e₁.map (fun e => e.score.getD 5)).head? =
        (e₂.map (fun e => e.score.getD 5)).head? →
      (e₁.map (fun e => e.score.getD 5))[e₁.length - 2]? =
        (e₂.map (fun e => e.score.getD 5))[e₂.length - 2]? →
      (e₁.map (fun e => e.score.getD 5)).getLast? =
        (e₂.map (fun e => e.score.getD 5)).getLast? →
      (generate_mood_insights e₁).trends.map MoodTrend.direction =
        (generate_mood_insights e₂).trends.map MoodTrend.direction) := by
  have key : ∀ (entries : List MoodEntry) (f sl l : Int), 3 ≤ entries.length →
      (entries.map (fun e => e.score.getD 5)).head? = some f →
      (entries.map (fun e => e.score.getD 5))[entries.length - 2]? = some sl →
      (entries.map (fun e => e.score.getD 5)).getLast? = some l →
      ∃ t, (generate_mood_insights entries).trends = some t ∧
        (t.direction = "improving" ↔ l > f ∧ sl > f) ∧
        (t.direction = "declining" ↔ l < f ∧ sl < f) ∧
        (t.direction = "stable" ↔ ¬(l > f ∧ sl > f) ∧ ¬(l < f ∧ sl < f)) := by
    intro entries f sl l h3 hf hsl hl
    obtain ⟨t, ht, hd⟩ := trends_direction_spec entries f sl l h3 hf hsl hl
    refine ⟨t, ht, ?_⟩
    split_ifs at hd with h1 h2
    · exact ⟨by rw [hd]; exact iff_of_true rfl h1,
        by rw [hd]; exact iff_of_false (by decide) (fun h => absurd h.1 (lt_asymm h1.1)),
        by rw [hd]; exact iff_of_false (by decide) (fun h => h.1 h1)⟩
    · exact ⟨by rw [hd]; exact iff_of_false (by decide) h1,
        by rw [hd]; exact iff_of_true rfl h2,
        by rw [hd]; exact iff_of_false (by decide) (fun h => h.2 h2)⟩
    · exact ⟨by rw [hd]; exact iff_of_false (by decide) h1,
        by rw [hd]; exact iff_of_false (by decide) h2,
        by rw [hd]; exact iff_of_true rfl ⟨h1, h2⟩⟩
  refine ⟨key, ?_⟩
  intro e₁ e₂ h₁ h₂ hh hs hg
  have hne₁ : e₁.map (fun e => e.score.getD 5) ≠ [] := by
    intro hc
    rw [List.map_eq_nil_iff] at hc
    subst hc
    simp at h₁
  have hidx₁ : e₁.length - 2 < (e₁.map (fun e => e.score.getD 5)).length := by
    simp only [List.length_map]
    omega
  cases hf : (e₁.map (fun e => e.score.getD 5)).head? with
  | none => exact absurd (List.head?_eq_none_iff.mp hf) hne₁
  | some f =>
  cases hsl : (e₁.map (fun e => e.score.getD 5))[e₁.length - 2]? with
  | none => exact absurd (List.getElem?_eq_none_iff.mp hsl) (by omega)
  | some sl =>
  cases hl : (e₁.map (fun e => e.score.getD 5)).getLast? with
  | none => exact absurd (List.getLast?_eq_none_iff.mp hl) hne₁
  | some l =>
  obtain ⟨t₁, ht₁, hd₁⟩ := trends_direction_spec e₁ f sl l h₁ hf hsl hl
  obtain ⟨t₂, ht₂, hd₂⟩ := trends_direction_spec e₂ f sl l h₂
    (hh ▸ hf) (hs ▸ hsl) (hg ▸ hl)
  rw [ht₁, ht₂]
  simp [hd₁, hd₂]

/-- Claim C7 witness: on the seven-entry window with scores
[3, 3, 3, 3, 8, 9, 9] (first 3, second-to-last 9, last 9) the trend is
classified `improving` and not `declining` or `stable`. -/
theorem mood_trend_first_last_two_witness :
    ∃ t, (generate_mood_insights
        ([3, 3, 3, 3, 8, 9, 9].map (fun n => ⟨some n⟩))).trends = some t ∧
      (t.direction = "improving" ↔ (9 : Int) > 3 ∧ (9 : Int) > 3) ∧
      (t.direction = "declining" ↔ (9 : Int) < 3 ∧ (9 : Int) < 3) ∧
      (t.direction = "stable" ↔
        ¬((9 : Int) > 3 ∧ (9 : Int) > 3) ∧ ¬((9 : Int) < 3 ∧ (9 : Int) < 3)) :=
  mood_trend_first_last_two.1 ([3, 3, 3, 3, 8, 9, 9].map (fun n => ⟨some n⟩))
    3 9 9 (by decide) (by decide) (by decide) (by decide)

/-- Claim C6, amended: an integer score in [1,10] is persisted as
exactly one entry with that score; an integer score outside [1,10] is
rejected with a validation error and nothing persisted; a string score
that does not parse as an integer is likewise rejected; but a float
score is first truncated toward zero and then handled as that integer,
so a non-integer score is not necessarily rejected. -/
theorem log_mood_validation :
    (∀ (u : String) (n : Int) (moods : List Int) (w : List MoodEntry),
      u ≠ "" → 1 ≤ n → n ≤ 10 →
      log_mood u (.pyInt n) moods w =
        (.success (generate_mood_insights w), moods ++ [n])) ∧
    (∀ (u : String) (n : Int) (moods : List Int) (w : List MoodEntry),
      u ≠ "" → (n < 1 ∨ n > 10) →
      log_mood u (.pyInt n) moods w = (.outOfRange, moods)) ∧
    (∀ (u s : String) (moods : List Int) (w : List MoodEntry),
      u ≠ "" → s.trim.toInt? = none →
      log_mood u (.pyStr s) moods w = (.invalidFormat, moods)) ∧
    (∀ (u : String) (q : ℚ) (moods : List Int) (w : List MoodEntry),
      u ≠ "" →
      log_mood u (.pyFloat q) moods w =
        log_mood u (.pyInt (Int.tdiv q.num q.den)) moods w) := by
  refine ⟨?_, ?_, ?_, ?_⟩
  · intro u n moods w hu h1 h10
    unfold log_mood
    rw [if_neg (by simp [PyVal.isPyNone, hu])]
    simp only [pyToInt]
    rw [if_neg (by omega)]
  · intro u n moods w hu hr
    unfold log_mood
    rw [if_neg (by simp [PyVal.isPyNone, hu])]
    simp only [pyToInt]
    rw [if_pos hr]
  · intro u s moods w hu hp
    unfold log_mood
    rw [if_neg (by simp [PyVal.isPyNone, hu])]
    simp only [pyToInt, hp]
  · intro u q moods w hu
    unfold log_mood
    rw [if_neg (by simp [PyVal.isPyNone, hu]), if_neg (by simp [PyVal.isPyNone, hu])]
    simp only [pyToInt]

/-- Claim C6 witness: the in-range integer 7 is persisted as one entry
and the out-of-range integer 11 is rejected without persisting. -/
theorem log_mood_validation_witness :
    log_mood "u" (.pyInt 7) [] [] =
      (.success (generate_mood_insights []), [7]) ∧
    log_mood "u" (.pyInt 11) [] [] = (.outOfRange, []) :=
  ⟨log_mood_validation.1 "u" 7 [] [] (by decide) (by decide) (by decide),
   log_mood_validation.2.1 "u" 11 [] [] (by decide) (by decide)⟩

/-- Claim C6, counterexample to the claim as stated: the score 10.9 is
neither an integer nor within [1,10], yet `log_mood` does not reject
it — Python `int()` truncates the float to 10 and one entry with score
10 is persisted with a success response. -/
theorem log_mood_truncates_float :
    tenPointNine = (109 : ℚ) / 10 ∧
    tenPointNine > 10 ∧
    (¬ ∃ k : Int, tenPointNine = (k : ℚ)) ∧
    log_mood "u" (.pyFloat tenPointNine) [] [] =
      (.success (generate_mood_insights []), [10]) := by
  refine ⟨?_, by decide, ?_, by rfl⟩
  · rw [← Rat.num_div_den tenPointNine]
    norm_num [show tenPointNine.num = 109 from rfl,
      show tenPointNine.den = 10 from rfl]
  · rintro ⟨k, hk⟩
    have h1 : tenPointNine.den = 10 := rfl
    have h2 : ((k : ℚ)).den = 1 := Rat.den_intCast k
    rw [hk, h2] at h1
    exact absurd h1 (by decide)

/-- Risk gating on a three-field assessment dict: the reply is
augmented with the suicide/self-harm block when `crisis_risk ≥ 7` and
the type is `suicidal` or `self_harm`, with the generic block when
`crisis_risk ≥ 7` and the type is anything else, and left unchanged
when `crisis_risk < 7`. -/
theorem augmentReply_mk (ai : String) (risk : Int) (ct act sb gb : String) :
    augmentReply ai [("crisis_risk", .jnum risk), ("crisis_type", .jstr ct),
                     ("recommended_action", .jstr act)] sb gb =
      some (if risk ≥ 7 then
              (if ct = "suicidal" ∨ ct = "self_harm" then ai ++ sb else ai ++ gb)
            else ai) := by
  unfold augmentReply
  simp only [List.lookup, show (("crisis_risk" == "crisis_risk") = true) from rfl,
    show (("crisis_type" == "crisis_risk") = false) from rfl,
    show (("crisis_type" == "crisis_type") = true) from rfl,
    if_true, if_false, Option.getD_some]
  split_ifs <;> rfl

/-- Whatever the outcome of the chat-completion call, the `messages`
list sent to the model is the one built from the history and the
inbound message. -/
theorem get_chat_response_fst (m : String) (h : List StoredMsg)
    (ro : ReplyOutcome) : (get_chat_response m h ro).1 = buildMessages m h := by
  cases ro <;> rfl

/-- Evaluation of the web turn handler on a well-formed assessment
dict: the turn completes with the risk-gated reply, the assessment
passed through unchanged, and the model context built from the fetched
history (empty when the history read failed). -/
theorem send_message_ok (u m : String) (store : List StoredMsg)
    (hf pu pb : Bool) (risk : Int) (ct act : String) (ro : ReplyOutcome)
    (hu : ¬ u = "") (hm : ¬ m = "") :
    ∃ r, send_message u m store hf pu pb
        (.parsed (mkAssessment risk ct act)) ro = .ok r ∧
      r.response = (if risk ≥ 7 then
          (if ct = "suicidal" ∨ ct = "self_harm"
           then (get_chat_response m (if hf then [] else store.take 10) ro).2 ++
                  webSuicideText
           else (get_chat_response m (if hf then [] else store.take 10) ro).2 ++
                  webGenericText)
        else (get_chat_response m (if hf then [] else store.take 10) ro).2) ∧
      r.assessment = mkAssessment risk ct act ∧
      r.sentMessages = buildMessages m (if hf then [] else store.take 10) := by
  unfold send_message
  rw [if_neg (by simp [hu, hm])]
  simp only [mkAssessment, assess_crisis_risk]
  rw [augmentReply_mk]
  exact ⟨_, rfl, rfl, rfl, get_chat_response_fst m _ ro⟩

/-- Evaluation of the SMS/WhatsApp handler when no store operation
fails, on a well-formed assessment dict: the reply sent back to the
carrier is the risk-gated reply over the Twilio resource texts. -/
theorem process_incoming_ok (body : String) (store : List StoredMsg)
    (ro : ReplyOutcome) (risk : Int) (ct act : String) :
    (process_incoming_message body store false false ro
        (.parsed (mkAssessment risk ct act)) false).1 =
      (if risk ≥ 7 then
         (if ct = "suicidal" ∨ ct = "self_harm"
          then (get_chat_response body (store.take 10) ro).2 ++ twilioSuicideText
          else (get_chat_response body (store.take 10) ro).2 ++ twilioGenericText)
       else (get_chat_response body (store.take 10) ro).2) := by
  unfold process_incoming_message
  simp only [mkAssessment, assess_crisis_risk, Bool.false_eq_true, if_false]
  rw [augmentReply_mk]

/-- Claim C2: on any turn whose reply generation succeeded, both the
web handler and the SMS/WhatsApp handler return the generated reply
with exactly one resource block appended when `crisis_risk ≥ 7` — the
suicide/self-harm specific text when `crisis_type` is `suicidal` or
`self_harm`, the generic crisis-resource text for any other type — and
the generated reply unchanged when `crisis_risk < 7`. -/
theorem risk_gating_appends_one_block :
    (∀ (u m raw act : String) (store : List StoredMsg) (hf pu pb : Bool)
       (risk : Int) (ct : String),
      u ≠ "" → m ≠ "" →
      (send_message u m store hf pu pb
          (.parsed (mkAssessment risk ct act)) (.ok raw)).response? =
        some (if risk ≥ 7 then
                (if ct = "suicidal" ∨ ct = "self_harm"
                 then raw.trim ++ webSuicideText
                 else raw.trim ++ webGenericText)
              else raw.trim)) ∧
    (∀ (body raw act : String) (store : List StoredMsg) (risk : Int)
       (ct : String),
      (process_incoming_message body store false false (.ok raw)
          (.parsed (mkAssessment risk ct act)) false).1 =
        (if risk ≥ 7 then
           (if ct = "suicidal" ∨ ct = "self_harm"
            then raw.trim ++ twilioSuicideText
            else raw.trim ++ twilioGenericText)
         else raw.trim)) := by
  constructor
  · intro u m raw act store hf pu pb risk ct hu hm
    obtain ⟨r, hr, hresp, -, -⟩ :=
      send_message_ok u m store hf pu pb risk ct act (.ok raw) hu hm
    rw [hr]
    simp only [SendResult.response?, hresp, get_chat_response]
  · intro body raw act store risk ct
    rw [process_incoming_ok]
    simp only [get_chat_response]

/-- Claim C2 witness: concretely, risk 8 with type `suicidal` appends
the suicide/self-harm block on the web channel, risk 8 with type
`panic` appends the generic block, and risk 6 appends nothing. -/
theorem risk_gating_appends_one_block_witness :
    (send_message "u" "hello" [] false false false
        (.parsed (mkAssessment 8 "suicidal" "crisis_line")) (.ok "reply")).response? =
      some ("reply".trim ++ webSuicideText) ∧
    (send_message "u" "hello" [] false false false
        (.parsed (mkAssessment 8 "panic" "crisis_line")) (.ok "reply")).response? =
      some ("reply".trim ++ webGenericText) ∧
    (send_message "u" "hello" [] false false false
        (.parsed (mkAssessment 6 "suicidal" "crisis_line")) (.ok "reply")).response? =
      some "reply".trim := by
  refine ⟨?_, ?_, ?_⟩
  · rw [risk_gating_appends_one_block.1 "u" "hello" "reply" "crisis_line" [] false
      false false 8 "suicidal" (by decide) (by decide)]
    simp
  · rw [risk_gating_appends_one_block.1 "u" "hello" "reply" "crisis_line" [] false
      false false 8 "panic" (by decide) (by decide)]
    simp
  · rw [risk_gating_appends_one_block.1 "u" "hello" "reply" "crisis_line" [] false
      false false 6 "suicidal" (by decide) (by decide)]
    simp

/-- Claim C1, amended: when the reply-generation call fails, the fixed
fallback string replaces the generated reply, but risk gating still
applies to it — with `crisis_risk ≥ 7` the matching crisis-resource
block is appended to the fallback, and only with `crisis_risk < 7` is
exactly the fallback string returned. -/
theorem send_message_reply_failure_fallback (u m act : String)
    (store : List StoredMsg) (hf pu pb : Bool) (risk : Int) (ct : String)
    (hu : u ≠ "") (hm : m ≠ "") :
    (send_message u m store hf pu pb
        (.parsed (mkAssessment risk ct act)) .failure).response? =
      some (if risk ≥ 7 then
              (if ct = "suicidal" ∨ ct = "self_harm"
               then fallbackReply ++ webSuicideText
               else fallbackReply ++ webGenericText)
            else fallbackReply) := by
  obtain ⟨r, hr, hresp, -, -⟩ :=
    send_message_ok u m store hf pu pb risk ct act .failure hu hm
  rw [hr]
  simp only [SendResult.response?, hresp, get_chat_response]

/-- Claim C1 witness: with reply generation failing and a crisis
assessment of risk 6, the handler returns exactly the fallback
string. -/
theorem send_message_reply_failure_fallback_witness :
    (send_message "u" "help" [] false false false
        (.parsed (mkAssessment 6 "suicidal" "crisis_line")) .failure).response? =
      some fallbackReply := by
  rw [send_message_reply_failure_fallback "u" "help" "crisis_line" [] false false
    false 6 "suicidal" (by decide) (by decide)]
  simp

/-- Claim C1, counterexample to the claim as stated: when reply
generation fails while the independent crisis classification succeeds
with risk 8 and type `suicidal`, the handler does NOT return exactly
the fallback string — it appends the suicide/self-harm resource block
on top of the fallback. -/
theorem send_message_fallback_gets_resources :
    (send_message "u" "help" [] false false false
        (.parsed (mkAssessment 8 "suicidal" "crisis_line")) .failure).response? =
      some (fallbackReply ++ webSuicideText) ∧
    fallbackReply ++ webSuicideText ≠ fallbackReply := by
  refine ⟨rfl, fun h => ?_⟩
  have h2 := congrArg String.length h
  rw [String.length_append] at h2
  have h3 : webSuicideText.length = 199 := rfl
  omega

/-- Claim C5, amended: on the web channel a history-retrieval or
persistence failure never prevents turn completion — retrieval failure
degrades the model context to an empty history, and the returned reply
and assessment do not depend on the persistence outcomes.  On the
SMS/WhatsApp channel, by contrast, a failure of history retrieval, of
persisting the inbound message, or of persisting the reply each aborts
the whole turn to the generic error reply: only the store writes that
happened before the failing operation survive. -/
theorem store_failures_web_vs_twilio :
    (∀ (u m act : String) (store : List StoredMsg) (hf pu pb : Bool)
       (risk : Int) (ct : String) (ro : ReplyOutcome),
      u ≠ "" → m ≠ "" →
      ∃ r, send_message u m store hf pu pb
          (.parsed (mkAssessment risk ct act)) ro = .ok r) ∧
    (∀ (u m act : String) (store : List StoredMsg) (pu pb : Bool)
       (risk : Int) (ct : String) (ro : ReplyOutcome),
      u ≠ "" → m ≠ "" →
      (send_message u m store true pu pb
          (.parsed (mkAssessment risk ct act)) ro).sent? =
        some (buildMessages m [])) ∧
    (∀ (u m : String) (store : List StoredMsg) (hf pu pb pu' pb' : Bool)
       (ao : AssessOutcome) (ro : ReplyOutcome),
      (send_message u m store hf pu pb ao ro).response? =
        (send_message u m store hf pu' pb' ao ro).response? ∧
      (send_message u m store hf pu pb ao ro).assessment? =
        (send_message u m store hf pu' pb' ao ro).assessment?) ∧
    (∀ (body : String) (store : List StoredMsg) (pu pb : Bool)
       (ro : ReplyOutcome) (ao : AssessOutcome),
      process_incoming_message body store true pu ro ao pb =
        (twilioProcFallback, store)) ∧
    (∀ (body : String) (store : List StoredMsg) (pb : Bool)
       (ro : ReplyOutcome) (ao : AssessOutcome),
      process_incoming_message body store false true ro ao pb =
        (twilioProcFallback, store)) ∧
    (∀ (body act : String) (store : List StoredMsg) (ro : ReplyOutcome)
       (risk : Int) (ct : String),
      process_incoming_message body store false false ro
          (.parsed (mkAssessment risk ct act)) true =
        (twilioProcFallback, store ++ [{ sender := "user", content := body }])) := by
  refine ⟨?_, ?_, ?_, ?_, ?_, ?_⟩
  · intro u m act store hf pu pb risk ct ro hu hm
    obtain ⟨r, hr, -, -, -⟩ :=
      send_message_ok u m store hf pu pb risk ct act ro hu hm
    exact ⟨r, hr⟩
  · intro u m act store pu pb risk ct ro hu hm
    obtain ⟨r, hr, -, -, hsent⟩ :=
      send_message_ok u m store true pu pb risk ct act ro hu hm
    rw [hr]
    simp only [SendResult.sent?, hsent, if_true]
  · intro u m store hf pu pb pu' pb' ao ro
    by_cases h : u = "" ∨ m = ""
    · constructor <;>
        simp [send_message, h, SendResult.response?, SendResult.assessment?]
    · have hsplit : ∀ v : JsonVal, v = assess_crisis_risk ao →
          (send_message u m store hf pu pb ao ro).response? =
            (send_message u m store hf pu' pb' ao ro).response? ∧
          (send_message u m store hf pu pb ao ro).assessment? =
            (send_message u m store hf pu' pb' ao ro).assessment? := by
        intro v hv
        cases v with
        | jobj fs =>
            cases hg : augmentReply
                (get_chat_response m (if hf then [] else store.take 10) ro).2 fs
                webSuicideText webGenericText with
            | none =>
                constructor <;>
                  simp [send_message, h, ← hv, hg,
                    SendResult.response?, SendResult.assessment?]
            | some ai2 =>
                constructor <;>
                  simp [send_message, h, ← hv, hg,
                    SendResult.response?, SendResult.assessment?]
        | jnull =>
            constructor <;>
              simp [send_message, h, ← hv,
                SendResult.response?, SendResult.assessment?]
        | jnum n =>
            constructor <;>
              simp [send_message, h, ← hv,
                SendResult.response?, SendResult.assessment?]
        | jstr s =>
            constructor <;>
              simp [send_message, h, ← hv,
                SendResult.response?, SendResult.assessment?]
        | jarr xs =>
            constructor <;>
              simp [send_message, h, ← hv,
                SendResult.response?, SendResult.assessment?]
      exact hsplit (assess_crisis_risk ao) rfl
  · intro body store pu pb ro ao
    rfl
  · intro body store pb ro ao
    rfl
  · intro body act store ro risk ct
    unfold process_incoming_message
    simp only [mkAssessment, assess_crisis_risk, Bool.false_eq_true, if_false]
    rw [augmentReply_mk]
    rfl

/-- Claim C5 witness: with the history read failing on the web channel
(and a large store), the context sent to the model contains no history
entries. -/
theorem store_failures_web_vs_twilio_witness :
    (send_message "u" "hi" elevenMsgs true false false
        (.parsed (mkAssessment 0 "none" "monitor")) (.ok "ok")).sent? =
      some (buildMessages "hi" []) :=
  store_failures_web_vs_twilio.2.1 "u" "hi" "monitor" elevenMsgs false false
    0 "none" (.ok "ok") (by decide) (by decide)

/-- Claim C5, counterexample to the claim as stated: on the SMS
channel a history-retrieval failure does not degrade to an empty
history and a reply-persistence failure does not leave the reply
unchanged — each aborts the turn, the caller receiving the generic
error reply instead, whereas the same turn without the store failure
returns the reply produced by the generator (here the
connection-fallback text, since reply generation also failed) and
persists both messages. -/
theorem twilio_history_failure_aborts_turn :
    process_incoming_message "hello" [] true false .failure
        (.parsed (mkAssessment 0 "none" "monitor")) false =
      (twilioProcFallback, []) ∧
    process_incoming_message "hello" [] false false .failure
        (.parsed (mkAssessment 0 "none" "monitor")) true =
      (twilioProcFallback, [⟨"user", "hello"⟩]) ∧
    process_incoming_message "hello" [] false false .failure
        (.parsed (mkAssessment 0 "none" "monitor")) false =
      (fallbackReply, [⟨"user", "hello"⟩, ⟨"bot", fallbackReply⟩]) ∧
    twilioProcFallback ≠ fallbackReply := by
  refine ⟨rfl, rfl, rfl, fun h => ?_⟩
  have h2 := congrArg String.length h
  have h3 : twilioProcFallback.length = 77 := rfl
  have h4 : fallbackReply.length = 70 := rfl
  omega

end KichwaniRada
